import Mathlib

/-!
Verification of the date-correction arithmetic of the gestational-age
calculator (src/src/main.rs).

Modelling notes.

A chrono NaiveDate is modelled by its day number (an integer, epoch
1970-01-01 = day 0) in the proleptic Gregorian calendar, which is chrono's
documented semantics.  Under this representation:
  - date subtraction (signed_duration_since(..).num_days()) is integer
    subtraction;
  - adding a Duration of n days is integer addition;
  - the year()/month()/day() accessors are the civil-from-days conversion
    (fromDays below, the standard Gregorian algorithm);
  - with_day(1) rebuilds a date from (year, month, 1) via days-from-civil
    (toDays below).

Machine integers: the Rust code uses i32/i64.  For the date ranges chrono
supports (|year| < 300000, so |day numbers| < 10^8) and for any sane
gestational input none of the arithmetic below approaches 2^31, so the
values are modelled as unbounded integers.  Rust integer division (/) on
i64 truncates toward zero and % is the remainder whose sign follows the
dividend; these are Int.tdiv and Int.tmod.

The expression (total_days as f64 / 30.4375).floor() as i64 is modelled
exactly: 30.4375 = 487/16 is a dyadic rational, hence exact in f64, and a
day count d with |d| < 10^8 is exact in f64; the quotient 16*d/487 is then
below 2^23 in magnitude, so the f64 division error (at most half an ulp,
about 2^-31 here) is far smaller than the minimal distance 1/487 from a
non-integer value of 16*d/487 to an integer, and flooring the f64 quotient
equals the exact rational floor Int.fdiv (16 * d) 487.
-/

namespace GestCalc

/-- Day number (epoch 1970-01-01) of a proleptic-Gregorian (year, month, day)
triple; standard days-from-civil algorithm. -/
def toDays (y m d : ℤ) : ℤ :=
  let y2 := y - (if m ≤ 2 then 1 else 0)
  let era := Int.fdiv y2 400
  let yoe := y2 - era * 400
  let doy := Int.fdiv (153 * (m + (if 2 < m then -3 else 9)) + 2) 5 + d - 1
  let doe := yoe * 365 + Int.fdiv yoe 4 - Int.fdiv yoe 100 + doy
  era * 146097 + doe - 719468

/-- Calendar date (year, month, day) of a day number; standard
civil-from-days algorithm. -/
def fromDays (z : ℤ) : ℤ × ℤ × ℤ :=
  let z2 := z + 719468
  let era := Int.fdiv z2 146097
  let doe := z2 - era * 146097
  let yoe := Int.fdiv (doe - Int.fdiv doe 1460 + Int.fdiv doe 36524 - Int.fdiv doe 146096) 365
  let y := yoe + era * 400
  let doy := doe - (365 * yoe + Int.fdiv yoe 4 - Int.fdiv yoe 100)
  let mp := Int.fdiv (5 * doy + 2) 153
  let d := doy - Int.fdiv (153 * mp + 2) 5 + 1
  let m := mp + (if mp < 10 then 3 else -9)
  (y + (if m ≤ 2 then 1 else 0), m, d)

/-- The year() accessor of NaiveDate. -/
def yearOf (z : ℤ) : ℤ := (fromDays z).1

/-- The month() accessor of NaiveDate. -/
def monthOf (z : ℤ) : ℤ := (fromDays z).2.1

/-- The day() accessor of NaiveDate. -/
def dayOf (z : ℤ) : ℤ := (fromDays z).2.2

/-- Embeds today.signed_duration_since(birthdate).num_days(). -/
def signedDaysSince (today birthdate : ℤ) : ℤ := today - birthdate

/-- The ChronologicalAge struct of main.rs (lines 20-26). -/
structure ChronologicalAge where
  years : ℤ
  months : ℤ
  days : ℤ
  total_weeks : ℤ
  total_months : ℤ
deriving DecidableEq

/-- The CorrectedAge struct of main.rs (lines 29-36). -/
structure CorrectedAge where
  years : ℤ
  months : ℤ
  days : ℤ
  weeks : ℤ
  days_in_week : ℤ
  total_months : ℤ
deriving DecidableEq

/-- calculate_chronological_age of main.rs (lines 327-357).  The sequence of
let bindings mirrors the mutation order of the Rust locals: a single borrow
from the month when days is negative (adding the day count of the month
preceding today's month, obtained exactly as the code does, as the day
component of today.with_day(1) minus one day), then a single borrow from the
year when months is negative.  total_weeks uses Rust i64 division
(truncation, Int.tdiv); total_months is the exact value of
(total_days as f64 / 30.4375).floor() as i64 (see the modelling notes). -/
def calculate_chronological_age (birthdate today : ℤ) : ChronologicalAge :=
  let years0 := yearOf today - yearOf birthdate
  let months0 := monthOf today - monthOf birthdate
  let days0 := dayOf today - dayOf birthdate
  let months1 := if days0 < 0 then months0 - 1 else months0
  let days1 :=
    if days0 < 0 then days0 + dayOf (toDays (yearOf today) (monthOf today) 1 - 1) else days0
  let years1 := if months1 < 0 then years0 - 1 else years0
  let months2 := if months1 < 0 then months1 + 12 else months1
  let total_days := signedDaysSince today birthdate
  { years := years1
    months := months2
    days := days1
    total_weeks := Int.tdiv total_days 7
    total_months := Int.fdiv (16 * total_days) 487 }

/-- The prematurity_days expression of main.rs (lines 366-370):
full_term_days (40*7) minus total gestational days (weeks*7 + days). -/
def prematurityDays (gestational_weeks gestational_days : ℤ) : ℤ :=
  40 * 7 - (gestational_weeks * 7 + gestational_days)

/-- calculate_corrected_age of main.rs (lines 359-407).  When
prematurity_days is nonpositive the chronological result is copied, with
days_in_week the Rust i64 remainder (sign following the dividend, Int.tmod)
of the day span.  Otherwise the birth date is shifted forward by
prematurity_days, the calendar fields come from calculate_chronological_age
on the shifted date, and the week/remainder/total-month fields come from the
day span since the shifted date clamped at 0 by .max(0). -/
def calculate_corrected_age (birthdate today gestational_weeks gestational_days : ℤ) :
    CorrectedAge :=
  let prematurity_days := prematurityDays gestational_weeks gestational_days
  if prematurity_days ≤ 0 then
    let chronological := calculate_chronological_age birthdate today
    let total_days := signedDaysSince today birthdate
    { years := chronological.years
      months := chronological.months
      days := chronological.days
      weeks := chronological.total_weeks
      days_in_week := Int.tmod total_days 7
      total_months := chronological.total_months }
  else
    let corrected_birthdate := birthdate + prematurity_days
    let corrected_age_as_chrono := calculate_chronological_age corrected_birthdate today
    let corrected_total_days := max (signedDaysSince today corrected_birthdate) 0
    { years := corrected_age_as_chrono.years
      months := corrected_age_as_chrono.months
      days := corrected_age_as_chrono.days
      weeks := Int.tdiv corrected_total_days 7
      days_in_week := Int.tmod corrected_total_days 7
      total_months := Int.fdiv (16 * corrected_total_days) 487 }

/-- The state observable after AgeCalculatorApp::calculate (main.rs lines
107-158): the result_text and error_message fields it assigns. -/
structure AppState where
  result_text : Option String
  error_message : Option String
deriving DecidableEq

/-- The result format string of main.rs (lines 147-157). -/
def formatResult (c : ChronologicalAge) (k : CorrectedAge) : String :=
  "Idade Cronológica: " ++ toString c.total_weeks ++ " semanas (" ++
    toString c.total_months ++ " meses)\nIdade Corrigida: " ++ toString k.weeks ++
    " semanas (" ++ toString k.total_months ++ " meses) e " ++ toString k.days_in_week ++
    " dias\nIdade Corrigida (Anos): " ++ toString k.years ++ " anos, " ++
    toString k.months ++ " meses e " ++ toString k.days ++ " dias"

/-- AgeCalculatorApp::calculate (main.rs lines 107-158).  The three textual
inputs are abstracted by the outcome of their parses (NaiveDate
parse_from_str and i32 from_str are external library calls): none models a
parse failure.  The match cascade mirrors the three early returns, each
setting the corresponding error string and leaving result_text at the None
that the function stores on entry; only when all three parses succeed are
the two arithmetic functions applied and their formatted output stored. -/
def calculate (parsed_birthdate parsed_weeks parsed_days : Option ℤ) (today : ℤ) : AppState :=
  match parsed_birthdate with
  | none => { result_text := none
              error_message := some "Formato de data inválido. Use DD/MM/AAAA." }
  | some birthdate =>
    match parsed_weeks with
    | none => { result_text := none
                error_message := some "Idade gestacional deve ser um número." }
    | some gestational_weeks =>
      match parsed_days with
      | none => { result_text := none
                  error_message := some "Dias na semana de nascimento devem ser um número." }
      | some gestational_days =>
        let chronological_age := calculate_chronological_age birthdate today
        let corrected_age :=
          calculate_corrected_age birthdate today gestational_weeks gestational_days
        { result_text := some (formatResult chronological_age corrected_age)
          error_message := none }

/-- The truncating remainder of a nonpositive dividend is nonpositive
(sign of Int.tmod follows the dividend, as for the Rust % operator). -/
theorem tmod_nonpos_of_nonpos {a : ℤ} (b : ℤ) (h : a ≤ 0) : Int.tmod a b ≤ 0 := by
  have h1 : Int.tmod (-a) b = -(Int.tmod a b) := by
    rw [Int.tmod_def, Int.tmod_def, Int.neg_tdiv]
    ring
  have h2 := Int.tmod_nonneg (a := -a) b (by omega)
  omega

/-- C1 (counterexample): at birth date 2020-02-29 and reference date
2021-03-01, calculate_chronological_age does not return
years=1, months=0, days=1: the days field is 0, not 1. -/
theorem claim_C1_counterexample :
    ¬ ((calculate_chronological_age (toDays 2020 2 29) (toDays 2021 3 1)).years = 1 ∧
       (calculate_chronological_age (toDays 2020 2 29) (toDays 2021 3 1)).months = 0 ∧
       (calculate_chronological_age (toDays 2020 2 29) (toDays 2021 3 1)).days = 1) := by
  decide

/-- C1 (amended): at birth date 2020-02-29 and reference date 2021-03-01,
calculate_chronological_age returns years=1, months=0, days=0: the borrow
adds February 2021's 28 days to 1 - 29 = -28, giving exactly 0. -/
theorem claim_C1 :
    (calculate_chronological_age (toDays 2020 2 29) (toDays 2021 3 1)).years = 1 ∧
    (calculate_chronological_age (toDays 2020 2 29) (toDays 2021 3 1)).months = 0 ∧
    (calculate_chronological_age (toDays 2020 2 29) (toDays 2021 3 1)).days = 0 := by
  decide

/-- C2 (code evaluated at the failing input): at birth date 2023-01-31 and
reference date 2023-03-01 the code returns years=0, months=1, days=-2
instead of the claimed years=0, months=0, days=29: the single borrow adds
February's 28 days to 1 - 31 = -30 and leaves the days component at -2
without borrowing a second time. -/
theorem claim_C2_eval :
    (calculate_chronological_age (toDays 2023 1 31) (toDays 2023 3 1)).years = 0 ∧
    (calculate_chronological_age (toDays 2023 1 31) (toDays 2023 3 1)).months = 1 ∧
    (calculate_chronological_age (toDays 2023 1 31) (toDays 2023 3 1)).days = -2 := by
  decide

/-- C3 (counterexample): with birth date 2024-01-01, reference date
2024-01-10 (before the corrected birth date 2024-02-26), and gestational age
32 weeks 0 days, the total_months of calculate_corrected_age (0, from the
clamped day count) differs from the total_months of
calculate_chronological_age on the corrected birth date (-2). -/
theorem claim_C3_counterexample :
    (calculate_corrected_age (toDays 2024 1 1) (toDays 2024 1 10) 32 0).total_months ≠
      (calculate_chronological_age (toDays 2024 1 1 + prematurityDays 32 0)
        (toDays 2024 1 10)).total_months := by
  decide

/-- C3 (amended): in the preterm branch (prematurity_days > 0) the years,
months, and days fields of calculate_corrected_age equal those of
calculate_chronological_age applied to the corrected birth date; the
total_months field is computed from the day count clamped at 0, so it
coincides with the chronological one only when the reference date is at or
after the corrected birth date. -/
theorem claim_C3 (birthdate today gw gd cb : ℤ) (h : 0 < prematurityDays gw gd)
    (hcb : cb = birthdate + prematurityDays gw gd) :
    (calculate_corrected_age birthdate today gw gd).years =
      (calculate_chronological_age cb today).years ∧
    (calculate_corrected_age birthdate today gw gd).months =
      (calculate_chronological_age cb today).months ∧
    (calculate_corrected_age birthdate today gw gd).days =
      (calculate_chronological_age cb today).days ∧
    (cb ≤ today →
      (calculate_corrected_age birthdate today gw gd).total_months =
        (calculate_chronological_age cb today).total_months) := by
  subst hcb
  have hp : ¬ prematurityDays gw gd ≤ 0 := not_le.mpr h
  simp only [calculate_corrected_age, if_neg hp]
  refine ⟨trivial, trivial, trivial, fun hle => ?_⟩
  have hmax : max (signedDaysSince today (birthdate + prematurityDays gw gd)) 0 =
      signedDaysSince today (birthdate + prematurityDays gw gd) :=
    max_eq_left (by simpa [signedDaysSince, sub_nonneg] using hle)
  simp only [hmax]
  rfl

/-- C3 (witness): the amended statement instantiated at birth day 0,
reference day 100, gestational age 32 weeks 0 days (prematurity 56 > 0,
corrected birth day 56 ≤ 100). -/
theorem claim_C3_witness :
    (calculate_corrected_age 0 100 32 0).years =
      (calculate_chronological_age 56 100).years ∧
    (calculate_corrected_age 0 100 32 0).months =
      (calculate_chronological_age 56 100).months ∧
    (calculate_corrected_age 0 100 32 0).days =
      (calculate_chronological_age 56 100).days ∧
    ((56 : ℤ) ≤ 100 →
      (calculate_corrected_age 0 100 32 0).total_months =
        (calculate_chronological_age 56 100).total_months) :=
  claim_C3 0 100 32 0 56 (by decide) (by decide)

/-- C4: whenever prematurity_days ≤ 0 (at or past 40 weeks of gestation),
calculate_corrected_age copies years, months, days, weeks (= total_weeks)
and total_months from calculate_chronological_age on the unshifted dates,
and days_in_week is the truncating remainder (Int.tmod, the Rust %, whose
sign follows the dividend) of the signed day span by 7; the final two
conjuncts record the sign behaviour of that remainder. -/
theorem claim_C4 (birthdate today gw gd : ℤ) (h : prematurityDays gw gd ≤ 0) :
    calculate_corrected_age birthdate today gw gd =
      { years := (calculate_chronological_age birthdate today).years
        months := (calculate_chronological_age birthdate today).months
        days := (calculate_chronological_age birthdate today).days
        weeks := (calculate_chronological_age birthdate today).total_weeks
        days_in_week := Int.tmod (signedDaysSince today birthdate) 7
        total_months := (calculate_chronological_age birthdate today).total_months } ∧
    (0 ≤ signedDaysSince today birthdate →
      0 ≤ (calculate_corrected_age birthdate today gw gd).days_in_week) ∧
    (signedDaysSince today birthdate ≤ 0 →
      (calculate_corrected_age birthdate today gw gd).days_in_week ≤ 0) := by
  simp only [calculate_corrected_age, if_pos h]
  exact ⟨trivial, fun h0 => Int.tmod_nonneg 7 h0, fun h0 => tmod_nonpos_of_nonpos 7 h0⟩

/-- C4 (witness): the statement instantiated at birth day 0, reference
day 10, gestational age 40 weeks 0 days (prematurity 0 ≤ 0). -/
theorem claim_C4_witness :
    calculate_corrected_age 0 10 40 0 =
      { years := (calculate_chronological_age 0 10).years
        months := (calculate_chronological_age 0 10).months
        days := (calculate_chronological_age 0 10).days
        weeks := (calculate_chronological_age 0 10).total_weeks
        days_in_week := Int.tmod (signedDaysSince 10 0) 7
        total_months := (calculate_chronological_age 0 10).total_months } ∧
    (0 ≤ signedDaysSince 10 0 → 0 ≤ (calculate_corrected_age 0 10 40 0).days_in_week) ∧
    (signedDaysSince 10 0 ≤ 0 → (calculate_corrected_age 0 10 40 0).days_in_week ≤ 0) :=
  claim_C4 0 10 40 0 (by decide)

/-- C5: for every date d, calculate_chronological_age d d returns
years=0, months=0, days=0, total_weeks=0, total_months=0, and the signed
day span (the total_days local of the code) is 0. -/
theorem claim_C5 (d : ℤ) :
    calculate_chronological_age d d =
      { years := 0, months := 0, days := 0, total_weeks := 0, total_months := 0 } ∧
    signedDaysSince d d = 0 := by
  constructor
  · simp [calculate_chronological_age, signedDaysSince, Int.zero_tdiv, Int.zero_fdiv]
  · simp [signedDaysSince]

/-- C6 (counterexample): with birth date 1970-01-08, reference date
1970-01-01 (reference before birth) and gestational age 32 weeks, the
corrected weeks field is 0 (clamped) while the chronological total_weeks is
-1, so the corrected age in weeks is not ≤ the chronological one and the
claim fails without a reference ≥ birth restriction. -/
theorem claim_C6_counterexample :
    ¬ ((calculate_corrected_age (toDays 1970 1 8) (toDays 1970 1 1) 32 0).weeks ≤
       (calculate_chronological_age (toDays 1970 1 8) (toDays 1970 1 1)).total_weeks) := by
  decide

/-- C6 (amended, adding reference_date ≥ birth_date): decreasing
gestational_weeks never decreases prematurity_days, and when the reference
date is at or after the birth date the corrected weeks field is at most the
chronological total_weeks and, in the preterm case, the clamped corrected
day count is at most the chronological day count. -/
theorem claim_C6 (birthdate today gw gw2 gd : ℤ) (hw : gw2 ≤ gw)
    (hbt : birthdate ≤ today) :
    prematurityDays gw gd ≤ prematurityDays gw2 gd ∧
    (calculate_corrected_age birthdate today gw gd).weeks ≤
      (calculate_chronological_age birthdate today).total_weeks ∧
    (0 < prematurityDays gw gd →
      max (signedDaysSince today (birthdate + prematurityDays gw gd)) 0 ≤
        signedDaysSince today birthdate) := by
  have h0 : (0 : ℤ) ≤ signedDaysSince today birthdate := by
    simp only [signedDaysSince, sub_nonneg]
    exact hbt
  refine ⟨?_, ?_, ?_⟩
  · simp only [prematurityDays]
    linarith
  · by_cases hp : prematurityDays gw gd ≤ 0
    · simp only [calculate_corrected_age, if_pos hp]
      exact le_refl _
    · push_neg at hp
      have hmax0 : (0 : ℤ) ≤ max (signedDaysSince today (birthdate + prematurityDays gw gd)) 0 :=
        le_max_right _ _
      have hmaxle : max (signedDaysSince today (birthdate + prematurityDays gw gd)) 0 ≤
          signedDaysSince today birthdate := by
        refine max_le ?_ h0
        simp only [signedDaysSince]
        linarith
      simp only [calculate_corrected_age, calculate_chronological_age,
        if_neg (not_le.mpr hp)]
      rw [Int.tdiv_eq_ediv hmax0 (by norm_num), Int.tdiv_eq_ediv h0 (by norm_num)]
      exact Int.ediv_le_ediv (by norm_num) hmaxle
  · intro hp
    refine max_le ?_ h0
    simp only [signedDaysSince]
    linarith

/-- C6 (witness): the amended statement instantiated at birth day 0,
reference day 100, gestational weeks 40 decreased to 32, gestational
days 0. -/
theorem claim_C6_witness :
    prematurityDays 40 0 ≤ prematurityDays 32 0 ∧
    (calculate_corrected_age 0 100 40 0).weeks ≤
      (calculate_chronological_age 0 100).total_weeks ∧
    (0 < prematurityDays 40 0 →
      max (signedDaysSince 100 (0 + prematurityDays 40 0)) 0 ≤ signedDaysSince 100 0) :=
  claim_C6 0 100 40 32 0 (by decide) (by decide)

/-- C7: at birth date 2024-01-01, gestational age 32 weeks 0 days, and
reference date 2024-06-01, prematurity_days is 56, the corrected birth date
is 2024-02-26, the calendar fields of the result are those of
calculate_chronological_age on 2024-02-26 and 2024-06-01, and weeks,
days_in_week (and total_months) are derived from the day span from
2024-02-26 to 2024-06-01 clamped at a minimum of 0. -/
theorem claim_C7 :
    prematurityDays 32 0 = 56 ∧
    toDays 2024 1 1 + prematurityDays 32 0 = toDays 2024 2 26 ∧
    calculate_corrected_age (toDays 2024 1 1) (toDays 2024 6 1) 32 0 =
      { years := (calculate_chronological_age (toDays 2024 2 26) (toDays 2024 6 1)).years
        months := (calculate_chronological_age (toDays 2024 2 26) (toDays 2024 6 1)).months
        days := (calculate_chronological_age (toDays 2024 2 26) (toDays 2024 6 1)).days
        weeks := Int.tdiv (max (signedDaysSince (toDays 2024 6 1) (toDays 2024 2 26)) 0) 7
        days_in_week :=
          Int.tmod (max (signedDaysSince (toDays 2024 6 1) (toDays 2024 2 26)) 0) 7
        total_months :=
          Int.fdiv (16 * max (signedDaysSince (toDays 2024 6 1) (toDays 2024 2 26)) 0) 487 } := by
  decide

/-- C8: if any of the three parses fails (none), calculate produces no
result text and sets exactly the error message of the first failing field:
the date-format message when the birth date fails, the gestational-weeks
message when the birth date parses but the weeks field fails, and the
gestational-days message when only the days field fails. -/
theorem claim_C8 (pb pw pd : Option ℤ) (today : ℤ)
    (h : pb = none ∨ pw = none ∨ pd = none) :
    (calculate pb pw pd today).result_text = none ∧
    ((pb = none ∧ (calculate pb pw pd today).error_message =
        some "Formato de data inválido. Use DD/MM/AAAA.") ∨
     (pb ≠ none ∧ pw = none ∧ (calculate pb pw pd today).error_message =
        some "Idade gestacional deve ser um número.") ∨
     (pb ≠ none ∧ pw ≠ none ∧ pd = none ∧ (calculate pb pw pd today).error_message =
        some "Dias na semana de nascimento devem ser um número.")) := by
  match pb, pw, pd with
  | none, _, _ => exact ⟨rfl, Or.inl ⟨rfl, rfl⟩⟩
  | some b, none, _ => exact ⟨rfl, Or.inr (Or.inl ⟨by simp, rfl, rfl⟩)⟩
  | some b, some w, none => exact ⟨rfl, Or.inr (Or.inr ⟨by simp, by simp, rfl, rfl⟩)⟩
  | some b, some w, some dd => simp at h

/-- C8 (witness): the statement instantiated at a failing birth-date parse
with succeeding numeric parses. -/
theorem claim_C8_witness :
    (calculate none (some 40) (some 0) 0).result_text = none ∧
    (((none : Option ℤ) = none ∧ (calculate none (some 40) (some 0) 0).error_message =
        some "Formato de data inválido. Use DD/MM/AAAA.") ∨
     ((none : Option ℤ) ≠ none ∧ (some (40 : ℤ)) = none ∧
        (calculate none (some 40) (some 0) 0).error_message =
        some "Idade gestacional deve ser um número.") ∨
     ((none : Option ℤ) ≠ none ∧ (some (40 : ℤ)) ≠ none ∧ (some (0 : ℤ)) = none ∧
        (calculate none (some 40) (some 0) 0).error_message =
        some "Dias na semana de nascimento devem ser um número.")) :=
  claim_C8 none (some 40) (some 0) 0 (Or.inl rfl)

/-- C9: for every pair of day numbers, the total_months field of
calculate_chronological_age is the floor of the exact signed day difference
divided by the rational constant 30.4375 (the mean-month-length divisor;
exact in f64, see the modelling notes). -/
theorem claim_C9 (birthdate today : ℤ) :
    (calculate_chronological_age birthdate today).total_months =
      ⌊((signedDaysSince today birthdate : ℤ) : ℚ) / (30.4375 : ℚ)⌋ := by
  show Int.fdiv (16 * signedDaysSince today birthdate) 487 = _
  have h : ((signedDaysSince today birthdate : ℤ) : ℚ) / (30.4375 : ℚ) =
      (((16 * signedDaysSince today birthdate : ℤ) : ℚ)) / ((487 : ℕ) : ℚ) := by
    push_cast
    ring
  rw [h, Rat.floor_intCast_div_natCast, Int.fdiv_eq_ediv _ (by norm_num)]
  norm_num

/-- C10: in the preterm branch (prematurity_days > 0), for all dates the
weeks field is nonnegative, the days_in_week field lies between 0 and 6,
and the total_months field is nonnegative, because all three are derived
from the day count clamped at a minimum of 0. -/
theorem claim_C10 (birthdate today gw gd : ℤ) (h : 0 < prematurityDays gw gd) :
    0 ≤ (calculate_corrected_age birthdate today gw gd).weeks ∧
    0 ≤ (calculate_corrected_age birthdate today gw gd).days_in_week ∧
    (calculate_corrected_age birthdate today gw gd).days_in_week ≤ 6 ∧
    0 ≤ (calculate_corrected_age birthdate today gw gd).total_months := by
  have hp : ¬ prematurityDays gw gd ≤ 0 := not_le.mpr h
  simp only [calculate_corrected_age, if_neg hp]
  have hmax0 : (0 : ℤ) ≤ max (signedDaysSince today (birthdate + prematurityDays gw gd)) 0 :=
    le_max_right _ _
  refine ⟨Int.tdiv_nonneg hmax0 (by norm_num), Int.tmod_nonneg 7 hmax0, ?_, ?_⟩
  · have := Int.tmod_lt_of_pos
      (max (signedDaysSince today (birthdate + prematurityDays gw gd)) 0)
      (show (0 : ℤ) < 7 by norm_num)
    omega
  · exact Int.fdiv_nonneg (by positivity) (by norm_num)

/-- C10 (witness): the statement instantiated at birth day 0, reference
day 10 (before the corrected birth day 56), gestational age 32 weeks
0 days. -/
theorem claim_C10_witness :
    0 ≤ (calculate_corrected_age 0 10 32 0).weeks ∧
    0 ≤ (calculate_corrected_age 0 10 32 0).days_in_week ∧
    (calculate_corrected_age 0 10 32 0).days_in_week ≤ 6 ∧
    0 ≤ (calculate_corrected_age 0 10 32 0).total_months :=
  claim_C10 0 10 32 0 (by decide)

end GestCalc
